import Mathlib

/-!
Verification of the gesture classification and temporal-smoothing pipeline of
the NAHX backend (src/src/App.tsx).

The classifier (`recognizeGesture`, App.tsx lines 102-200) and the stabilizer
(the smoothing logic inside `predictWebcam`, App.tsx lines 217-246, together
with `clearText`, lines 301-304) are shallowly embedded below.

Modelling conventions:
* A landmark is a pair of rational coordinates (the JS code uses IEEE doubles;
  every predicate in the source is an order comparison of +,-,*,abs and sqrt
  of the coordinates, which we model over ℚ).
* `Math.sqrt d > c` with `c ≥ 0` is modelled as `d > c^2` (both sides of the
  source comparison are nonnegative, and squaring is monotone), so distances
  are represented by their squares (`sqDist`).
* A JS out-of-bounds array read (`landmarks[i]` with `i ≥ length`, which
  yields `undefined` and makes the subsequent `.x`/`.y` access throw a
  TypeError) is modelled by `List.get?` returning `none`, propagated to the
  `ClassifyResult.thrown` outcome.
-/

/-- A single hand landmark: normalized x / y coordinates.  The source ignores
the z coordinate everywhere, so it is omitted. -/
structure Pt where
  x : ℚ
  y : ℚ
deriving DecidableEq, Repr

/-- Squared Euclidean distance; stands for the source's
`Math.sqrt((p1.x-p2.x)^2 + (p1.y-p2.y)^2)` with comparisons squared. -/
def sqDist (p1 p2 : Pt) : ℚ :=
  (p1.x - p2.x) ^ 2 + (p1.y - p2.y) ^ 2

/-- App.tsx lines 107-112: a finger is "up" when its tip is above PIP and MCP
by fixed margins (y grows downward, so "above" is a smaller y). -/
def isFingerUp (ptip ppip pmcp : Pt) : Bool :=
  let dy1 := ppip.y - ptip.y
  let dy2 := pmcp.y - ppip.y
  decide (dy1 > 0.04) && decide (dy1 + dy2 > 0.06)

/-- The per-hand derived data of App.tsx lines 106-135 (`getHandData`). -/
structure HandData where
  indexUp : Bool
  middleUp : Bool
  ringUp : Bool
  pinkyUp : Bool
  thumbUp : Bool
  isFoodShape : Bool
  isPointingLeft : Bool
  isPointingRight : Bool
  landmarks : List Pt
deriving DecidableEq, Repr

/-- App.tsx lines 106-135.  Every landmark index the source body reads is
fetched here; if any is out of range the whole computation throws in JS,
modelled by `none`.  `thumbUp` is `thumbDist > 0.12`, i.e. squared distance
`> 0.12^2`; `isFoodShape` uses radius 0.05 the same way. -/
def getHandData (landmarks : List Pt) : Option HandData :=
  match landmarks[4]?, landmarks[5]?, landmarks[6]?, landmarks[8]?,
        landmarks[9]?, landmarks[10]?, landmarks[12]?, landmarks[13]?,
        landmarks[14]?, landmarks[16]?, landmarks[17]?, landmarks[18]?,
        landmarks[20]? with
  | some p4, some p5, some p6, some p8, some p9, some p10, some p12, some p13,
    some p14, some p16, some p17, some p18, some p20 =>
    some
      { indexUp := isFingerUp p8 p6 p5
        middleUp := isFingerUp p12 p10 p9
        ringUp := isFingerUp p16 p14 p13
        pinkyUp := isFingerUp p20 p18 p17
        thumbUp := decide (sqDist p4 p5 > 0.12 ^ 2)
        isFoodShape := decide (sqDist p4 p8 < 0.05 ^ 2) && decide (sqDist p4 p12 < 0.05 ^ 2)
        isPointingLeft := decide (p8.x < p5.x - 0.12)
        isPointingRight := decide (p8.x > p5.x + 0.12)
        landmarks := landmarks }
  | _, _, _, _, _, _, _, _, _, _, _, _, _ => none

/-- Result of one classification call.  `thrown` models the JS TypeError
raised by an out-of-range landmark access; `label o` models a normal return
(`o = none` is the source's `return null`). -/
inductive ClassifyResult where
  | thrown : ClassifyResult
  | label : Option String → ClassifyResult
deriving DecidableEq, Repr

/-- The single-hand cascade of App.tsx lines 151-199, in source order.
The landmark reads inside branches 3 and 4 occur exactly where the source
performs them (after the earlier branches have failed). -/
def singleHand (h1 : HandData) : ClassifyResult :=
  if h1.isFoodShape then .label (some "FOOD")
  else if h1.indexUp && !h1.middleUp && h1.ringUp && h1.pinkyUp then .label (some "MEDICINE")
  else if h1.indexUp && h1.thumbUp && !h1.middleUp && !h1.ringUp && !h1.pinkyUp then
    .label (some "DANGER")
  else if !h1.indexUp && !h1.middleUp && !h1.ringUp && h1.pinkyUp && !h1.thumbUp then
    .label (some "BAD")
  else if h1.thumbUp && !h1.indexUp && !h1.middleUp && !h1.ringUp && !h1.pinkyUp then
    .label (some "GOOD")
  else if h1.indexUp && h1.middleUp && !h1.ringUp && !h1.pinkyUp then
    match h1.landmarks[8]?, h1.landmarks[12]? with
    | some p8, some p12 =>
      let d : ℚ := |p8.x - p12.x|
      if d < 0.03 then .label (some "REST ROOM")
      else if h1.thumbUp then .label (some "NO")
      else .label (some "WAIT")
    | _, _ => .thrown
  else if h1.indexUp && h1.middleUp && h1.ringUp && h1.pinkyUp then
    match h1.landmarks[8]?, h1.landmarks[0]? with
    | some p8, some p0 =>
      let angle : ℚ := |p8.x - p0.x|
      if angle > 0.22 then .label (some "SLEEP")
      else
        match h1.landmarks[20]? with
        | some p20 =>
          let spread : ℚ := |p8.x - p20.x|
          if spread > 0.2 then .label (some "PLEASE")
          else if h1.thumbUp then .label (some "HELLO")
          else .label (some "THANK YOU")
        | none => .thrown
    | _, _ => .thrown
  else if h1.indexUp && !h1.middleUp && !h1.ringUp && !h1.pinkyUp then
    if h1.isPointingLeft then .label (some "LEFT")
    else if h1.isPointingRight then .label (some "RIGHT")
    else .label (some "GO")
  else if !h1.indexUp && !h1.middleUp && !h1.ringUp && !h1.pinkyUp then
    if h1.thumbUp then .label (some "YES")
    else .label (some "SORRY")
  else .label none

/-- App.tsx lines 102-200 (`recognizeGesture`).  The argument is the list of
detected hands (`result.landmarks`); the detector caps it at two hands and
the source only reads `hands[0]` and `hands[1]`. -/
def recognizeGesture (hands : List (List Pt)) : ClassifyResult :=
  match hands with
  | [] => .label none
  | hand1 :: rest =>
    match getHandData hand1 with
    | none => .thrown
    | some h1 =>
      match rest with
      | [] => singleHand h1
      | hand2 :: _ =>
        match getHandData hand2 with
        | none => .thrown
        | some h2 =>
          let h1Flat := h1.indexUp && h1.middleUp && h1.ringUp && h1.pinkyUp
          let h2Fist := !h2.indexUp && !h2.middleUp && !h2.ringUp && !h2.pinkyUp
          let h2Flat := h2.indexUp && h2.middleUp && h2.ringUp && h2.pinkyUp
          let h1Fist := !h1.indexUp && !h1.middleUp && !h1.ringUp && !h1.pinkyUp
          if (h1Flat && h2Fist) || (h2Flat && h1Fist) then .label (some "HELP")
          else if h1Flat && h2Flat then .label (some "STOP")
          else singleHand h1

example : recognizeGesture [] = .label none := by decide

/-- A 21-point hand with all four non-thumb fingers up, thumb far from the
index MCP (so `thumbUp`), no tilt, spread 0.15, and thumb tip away from the
index/middle tips (not the food shape): the HELLO pose. -/
def helloHand : List Pt :=
  [⟨0.5, 0.95⟩, ⟨0.45, 0.9⟩, ⟨0.46, 0.85⟩, ⟨0.48, 0.75⟩, ⟨0.3, 0.8⟩,
   ⟨0.5, 0.8⟩, ⟨0.5, 0.7⟩, ⟨0.5, 0.65⟩, ⟨0.5, 0.6⟩,
   ⟨0.55, 0.8⟩, ⟨0.55, 0.7⟩, ⟨0.55, 0.65⟩, ⟨0.55, 0.6⟩,
   ⟨0.6, 0.8⟩, ⟨0.6, 0.7⟩, ⟨0.6, 0.65⟩, ⟨0.6, 0.6⟩,
   ⟨0.65, 0.8⟩, ⟨0.65, 0.7⟩, ⟨0.65, 0.65⟩, ⟨0.65, 0.6⟩]

/-- Same hand but with the thumb tip at (0.52, 0.62): still `thumbUp`
(squared distance to the index MCP is 0.0328 > 0.0144) but now within 0.05 of
both the index tip and the middle tip, so the food/pinch shape holds. -/
def foodHand : List Pt :=
  [⟨0.5, 0.95⟩, ⟨0.45, 0.9⟩, ⟨0.46, 0.85⟩, ⟨0.48, 0.75⟩, ⟨0.52, 0.62⟩,
   ⟨0.5, 0.8⟩, ⟨0.5, 0.7⟩, ⟨0.5, 0.65⟩, ⟨0.5, 0.6⟩,
   ⟨0.55, 0.8⟩, ⟨0.55, 0.7⟩, ⟨0.55, 0.65⟩, ⟨0.55, 0.6⟩,
   ⟨0.6, 0.8⟩, ⟨0.6, 0.7⟩, ⟨0.6, 0.65⟩, ⟨0.6, 0.6⟩,
   ⟨0.65, 0.8⟩, ⟨0.65, 0.7⟩, ⟨0.65, 0.65⟩, ⟨0.65, 0.6⟩]

/-- A degenerate 21-point hand (all landmarks coincide): every finger is
down, the thumb is not extended; a fist per the source's predicates. -/
def fistHand : List Pt := List.replicate 21 ⟨0.5, 0.5⟩

/-- A second degenerate fist at different coordinates. -/
def fistHand2 : List Pt := List.replicate 21 ⟨0.3, 0.3⟩

/-- A 20-point (too short) hand: the malformed input of the spec's edge case. -/
def shortHand : List Pt := List.replicate 20 ⟨0.5, 0.5⟩

/-! ### The stabilizer (App.tsx lines 30-33, 217-246, 301-304) -/

/-- App.tsx line 32: number of frames the smoothing buffer holds. -/
def BUFFER_SIZE : Nat := 10

/-- App.tsx line 33: minimum occurrences in the buffer to trigger. -/
def CONFIDENCE_THRESHOLD : Nat := 7

/-- The per-session mutable state used by the smoothing logic:
`smoothingBuffer` (line 31), `detectedWordRef`/`detectedWord` (lines 18, 28,
the confirmed label, the empty string when nothing is confirmed yet), and
`gestureHistory` (line 22). -/
structure StabState where
  smoothingBuffer : List String
  detectedWord : String
  gestureHistory : List String
deriving DecidableEq, Repr

/-- The state before any frame was processed. -/
def initState : StabState := ⟨[], "", []⟩

/-- App.tsx lines 225-226: `counts` is a JS object filled by a `forEach`
over the buffer; `Object.entries` then lists its (non-numeric string) keys in
insertion order, i.e. in order of first occurrence in the buffer.  This
computes that key order; the count of a key `g` is `buf.count g`. -/
def keysInOrder (buf : List String) : List String :=
  buf.foldl (fun acc g => if g ∈ acc then acc else acc ++ [g]) []

/-- App.tsx lines 228-235: the fold over `Object.entries(counts)` starting
from `bestGesture = ''`, `maxCount = 0`, keeping the first strictly greater
count. -/
def bestFold (buf : List String) (acc : String × Nat) (keys : List String) : String × Nat :=
  keys.foldl (fun best g => if buf.count g > best.2 then (g, buf.count g) else best) acc

/-- App.tsx lines 224-235 combined: the winning (gesture, count) pair. -/
def bestOf (buf : List String) : String × Nat :=
  bestFold buf ("", 0) (keysInOrder buf)

/-- One pass of the smoothing logic of App.tsx lines 217-246 for a raw
classifier output.  Returns the new state and the confirmation event:
`some g` when lines 237-242 fire (`setDetectedWord`, history push, `speak`),
`none` otherwise.  A `none` raw gesture takes the `else` branch (lines
243-246), which does nothing. -/
def stabilizerUpdate (s : StabState) (raw : Option String) : StabState × Option String :=
  match raw with
  | none => (s, none)
  | some g =>
    let pushed := s.smoothingBuffer ++ [g]
    let buf := if pushed.length > BUFFER_SIZE then pushed.tail else pushed
    let best := bestOf buf
    if CONFIDENCE_THRESHOLD ≤ best.2 ∧ best.1 ≠ s.detectedWord then
      (⟨buf, best.1, (best.1 :: s.gestureHistory).take 5⟩, some best.1)
    else
      (⟨buf, s.detectedWord, s.gestureHistory⟩, none)

/-- Run the smoothing pass over a sequence of per-frame raw results,
collecting the per-call confirmation events in order. -/
def runStab (s : StabState) : List (Option String) → StabState × List (Option String)
  | [] => (s, [])
  | r :: rs =>
    let p := stabilizerUpdate s r
    let q := runStab p.1 rs
    (q.1, p.2 :: q.2)

/-- App.tsx lines 301-304 (`clearText`): resets `detectedWordRef` and the
displayed word to the empty string.  It does not touch `smoothingBuffer` or
`gestureHistory`. -/
def clearText (s : StabState) : StabState :=
  ⟨s.smoothingBuffer, "", s.gestureHistory⟩

/-- The derived data of `helloHand` (all fingers up, thumb extended, no
food shape, no pointing). -/
def helloHandD : HandData :=
  ⟨true, true, true, true, true, false, false, false, helloHand⟩

/-- The derived data of `foodHand`: as `helloHandD` but the food/pinch
shape also holds. -/
def foodHandD : HandData :=
  ⟨true, true, true, true, true, true, false, false, foodHand⟩

/-- The derived data of `fistHand`: everything down, thumb not extended;
the coincident landmarks also satisfy the food-shape predicate. -/
def fistHandD : HandData :=
  ⟨false, false, false, false, false, true, false, false, fistHand⟩

/-- The derived data of `fistHand2`. -/
def fistHand2D : HandData :=
  ⟨false, false, false, false, false, true, false, false, fistHand2⟩

/-- `allUp h`: all four non-thumb fingers are up — the source's `h1Flat`
condition (App.tsx line 142). -/
def allUp (h : HandData) : Prop :=
  h.indexUp = true ∧ h.middleUp = true ∧ h.ringUp = true ∧ h.pinkyUp = true

/-- `allDown h`: all four non-thumb fingers are down — the source's
`h2Fist` condition (App.tsx line 143). -/
def allDown (h : HandData) : Prop :=
  h.indexUp = false ∧ h.middleUp = false ∧ h.ringUp = false ∧ h.pinkyUp = false

/-- The combined two-hand condition of App.tsx lines 147-148: HELP or STOP
fires for the hand pair. -/
def twoHandRule (h1 h2 : HandData) : Bool :=
  let h1Flat := h1.indexUp && h1.middleUp && h1.ringUp && h1.pinkyUp
  let h2Fist := !h2.indexUp && !h2.middleUp && !h2.ringUp && !h2.pinkyUp
  let h2Flat := h2.indexUp && h2.middleUp && h2.ringUp && h2.pinkyUp
  let h1Fist := !h1.indexUp && !h1.middleUp && !h1.ringUp && !h1.pinkyUp
  ((h1Flat && h2Fist) || (h2Flat && h1Fist)) || (h1Flat && h2Flat)

/-! ### Claim theorems -/

/-- Claim C1.  The spec demands that `classify` fail closed (return none)
on a hand with fewer than 21 landmarks.  The code has no length check: on a
20-point hand the finger predicates read `landmarks[20]` (and `[17]`,
`[18]`), which is out of range, so the call throws a TypeError instead of
returning none.  This theorem evaluates the embedded classifier at such a
failing input and shows the thrown outcome. -/
theorem classify_short_hand_throws :
    shortHand.length = 20 ∧ recognizeGesture [shortHand] = ClassifyResult.thrown := by
  decide

/-- The stabilizer state reached from the initial state after seven
consecutive YES frames: YES has just been confirmed. -/
def confirmedYesState : StabState :=
  (runStab initState (List.replicate 7 (some "YES"))).1

/-- Claim C2.  The spec's `clear()` must reset both the confirmed label and
the smoothing buffer, so that re-confirming the just-cleared gesture takes
T = 7 fresh observations.  The code's `clearText` (App.tsx lines 301-304)
resets only the detected word: the buffer still holds the seven YES entries,
so a single further YES frame immediately re-confirms YES. -/
theorem clearText_keeps_buffer_immediate_reconfirm :
    confirmedYesState.detectedWord = "YES" ∧
    (clearText confirmedYesState).detectedWord = "" ∧
    (clearText confirmedYesState).smoothingBuffer = List.replicate 7 "YES" ∧
    (stabilizerUpdate (clearText confirmedYesState) (some "YES")).2 = some "YES" := by
  decide

/-- Claim C8.  A `none` raw result takes the source's empty `else` branch
(App.tsx lines 243-246): the buffer is untouched (no push, no eviction),
the confirmed label is untouched, and no confirmation event fires. -/
theorem stabilizerUpdate_none_noop (s : StabState) :
    stabilizerUpdate s none = (s, none) := rfl

/-- The raw-label sequence of the spec's scenario: seven YES (fist with
thumb up) frames followed by three GOOD frames. -/
def yesGoodSequence : List (Option String) :=
  List.replicate 7 (some "YES") ++ List.replicate 3 (some "GOOD")

/-- Claim C9.  Feeding the scenario sequence from the initial state yields
exactly one confirmation event, of YES, at the seventh call, and none at the
three GOOD calls that follow (GOOD only reaches count 3 < 7). -/
theorem yes_good_scenario_confirms_once :
    (runStab initState yesGoodSequence).2 =
      List.replicate 6 none ++ some "YES" :: List.replicate 3 none := by
  decide


/-- Evaluation rule for `getHandData` on a hand providing all thirteen
landmark indices the source reads. -/
lemma getHandData_eq (l : List Pt) (p4 p5 p6 p8 p9 p10 p12 p13 p14 p16 p17 p18 p20 : Pt)
    (h4 : l[4]? = some p4) (h5 : l[5]? = some p5) (h6 : l[6]? = some p6)
    (h8 : l[8]? = some p8) (h9 : l[9]? = some p9) (h10 : l[10]? = some p10)
    (h12 : l[12]? = some p12) (h13 : l[13]? = some p13) (h14 : l[14]? = some p14)
    (h16 : l[16]? = some p16) (h17 : l[17]? = some p17) (h18 : l[18]? = some p18)
    (h20 : l[20]? = some p20) :
    getHandData l = some
      { indexUp := isFingerUp p8 p6 p5
        middleUp := isFingerUp p12 p10 p9
        ringUp := isFingerUp p16 p14 p13
        pinkyUp := isFingerUp p20 p18 p17
        thumbUp := decide (sqDist p4 p5 > 0.12 ^ 2)
        isFoodShape := decide (sqDist p4 p8 < 0.05 ^ 2) && decide (sqDist p4 p12 < 0.05 ^ 2)
        isPointingLeft := decide (p8.x < p5.x - 0.12)
        isPointingRight := decide (p8.x > p5.x + 0.12)
        landmarks := l } := by
  simp only [getHandData, h4, h5, h6, h8, h9, h10, h12, h13, h14, h16, h17, h18, h20]

/-- `helloHand` parses to `helloHandD`. -/
lemma helloHand_data : getHandData helloHand = some helloHandD := by
  rw [getHandData_eq helloHand ⟨0.3, 0.8⟩ ⟨0.5, 0.8⟩ ⟨0.5, 0.7⟩ ⟨0.5, 0.6⟩ ⟨0.55, 0.8⟩
    ⟨0.55, 0.7⟩ ⟨0.55, 0.6⟩ ⟨0.6, 0.8⟩ ⟨0.6, 0.7⟩ ⟨0.6, 0.6⟩ ⟨0.65, 0.8⟩ ⟨0.65, 0.7⟩
    ⟨0.65, 0.6⟩ rfl rfl rfl rfl rfl rfl rfl rfl rfl rfl rfl rfl rfl]
  simp only [helloHandD, Option.some.injEq, HandData.mk.injEq]
  norm_num [isFingerUp, sqDist, decide_eq_true_eq, decide_eq_false_iff_not]

/-- `foodHand` parses to `foodHandD`. -/
lemma foodHand_data : getHandData foodHand = some foodHandD := by
  rw [getHandData_eq foodHand ⟨0.52, 0.62⟩ ⟨0.5, 0.8⟩ ⟨0.5, 0.7⟩ ⟨0.5, 0.6⟩ ⟨0.55, 0.8⟩
    ⟨0.55, 0.7⟩ ⟨0.55, 0.6⟩ ⟨0.6, 0.8⟩ ⟨0.6, 0.7⟩ ⟨0.6, 0.6⟩ ⟨0.65, 0.8⟩ ⟨0.65, 0.7⟩
    ⟨0.65, 0.6⟩ rfl rfl rfl rfl rfl rfl rfl rfl rfl rfl rfl rfl rfl]
  simp only [foodHandD, Option.some.injEq, HandData.mk.injEq]
  norm_num [isFingerUp, sqDist, decide_eq_true_eq, decide_eq_false_iff_not]

/-- `fistHand` parses to `fistHandD`. -/
lemma fistHand_data : getHandData fistHand = some fistHandD := by
  rw [getHandData_eq fistHand ⟨0.5, 0.5⟩ ⟨0.5, 0.5⟩ ⟨0.5, 0.5⟩ ⟨0.5, 0.5⟩ ⟨0.5, 0.5⟩
    ⟨0.5, 0.5⟩ ⟨0.5, 0.5⟩ ⟨0.5, 0.5⟩ ⟨0.5, 0.5⟩ ⟨0.5, 0.5⟩ ⟨0.5, 0.5⟩ ⟨0.5, 0.5⟩
    ⟨0.5, 0.5⟩ rfl rfl rfl rfl rfl rfl rfl rfl rfl rfl rfl rfl rfl]
  simp only [fistHandD, Option.some.injEq, HandData.mk.injEq]
  norm_num [isFingerUp, sqDist, decide_eq_true_eq, decide_eq_false_iff_not]

/-- `fistHand2` parses to `fistHand2D`. -/
lemma fistHand2_data : getHandData fistHand2 = some fistHand2D := by
  rw [getHandData_eq fistHand2 ⟨0.3, 0.3⟩ ⟨0.3, 0.3⟩ ⟨0.3, 0.3⟩ ⟨0.3, 0.3⟩ ⟨0.3, 0.3⟩
    ⟨0.3, 0.3⟩ ⟨0.3, 0.3⟩ ⟨0.3, 0.3⟩ ⟨0.3, 0.3⟩ ⟨0.3, 0.3⟩ ⟨0.3, 0.3⟩ ⟨0.3, 0.3⟩
    ⟨0.3, 0.3⟩ rfl rfl rfl rfl rfl rfl rfl rfl rfl rfl rfl rfl rfl]
  simp only [fistHand2D, Option.some.injEq, HandData.mk.injEq]
  norm_num [isFingerUp, sqDist, decide_eq_true_eq, decide_eq_false_iff_not]

/-- Claim C3, counterexample.  `foodHand` satisfies every hypothesis of the
claim — all four non-thumb fingers up, thumb-tip-to-index-MCP distance above
0.12 (squared distance 0.0328 > 0.0144), wrist-to-index-tip horizontal
displacement 0 ≤ 0.22, index-to-pinky tip spread 0.15 ≤ 0.2 — yet the
classifier returns FOOD, not HELLO: the food/pinch-shape branch (App.tsx
line 154) precedes the all-fingers-up branch (line 171) in the cascade. -/
theorem hello_scenario_counterexample :
    getHandData foodHand = some foodHandD ∧
    foodHandD.indexUp = true ∧ foodHandD.middleUp = true ∧
    foodHandD.ringUp = true ∧ foodHandD.pinkyUp = true ∧
    sqDist ⟨0.52, 0.62⟩ ⟨0.5, 0.8⟩ > 0.12 ^ 2 ∧
    foodHand[4]? = some ⟨0.52, 0.62⟩ ∧ foodHand[5]? = some ⟨0.5, 0.8⟩ ∧
    foodHand[0]? = some ⟨0.5, 0.95⟩ ∧ foodHand[8]? = some ⟨0.5, 0.6⟩ ∧
    foodHand[20]? = some ⟨0.65, 0.6⟩ ∧
    |(0.5 : ℚ) - 0.5| ≤ 0.22 ∧ |(0.5 : ℚ) - 0.65| ≤ 0.2 ∧
    recognizeGesture [foodHand] = ClassifyResult.label (some "FOOD") ∧
    ClassifyResult.label (some "FOOD") ≠ ClassifyResult.label (some "HELLO") := by
  refine ⟨foodHand_data, rfl, rfl, rfl, rfl, by norm_num [sqDist], rfl, rfl, rfl, rfl, rfl,
    by norm_num [abs_le], by norm_num [abs_le], ?_, by simp⟩
  simp only [recognizeGesture, foodHand_data]
  rfl

/-- Claim C3, amended.  With the one extra hypothesis the counterexample
forces — the hand is not in the food/pinch shape — the claim holds: for any
single-hand input with all four non-thumb fingers up, thumb extended
(distance over 0.12), tilt displacement at most 0.22 and tip spread at most
0.2, the classifier returns HELLO (and hence never THANK YOU, SLEEP or
PLEASE). -/
theorem all_up_no_food_gives_hello (hand : List Pt) (h : HandData)
    (hd : getHandData hand = some h)
    (hi : h.indexUp = true) (hm : h.middleUp = true)
    (hr : h.ringUp = true) (hp : h.pinkyUp = true)
    (ht : h.thumbUp = true) (hf : h.isFoodShape = false)
    (p0 p8 p20 : Pt)
    (e8 : h.landmarks[8]? = some p8) (e0 : h.landmarks[0]? = some p0)
    (e20 : h.landmarks[20]? = some p20)
    (tilt : |p8.x - p0.x| ≤ 0.22) (spread : |p8.x - p20.x| ≤ 0.2) :
    recognizeGesture [hand] = ClassifyResult.label (some "HELLO") := by
  have htilt : ¬ (|p8.x - p0.x| > 0.22) := not_lt.mpr tilt
  have hspread : ¬ (|p8.x - p20.x| > 0.2) := not_lt.mpr spread
  simp [recognizeGesture, singleHand, hd, hi, hm, hr, hp, ht, hf, e8, e0, e20,
    htilt, hspread]

/-- Witness for the amended claim C3 at the concrete HELLO pose. -/
theorem all_up_no_food_gives_hello_witness :
    recognizeGesture [helloHand] = ClassifyResult.label (some "HELLO") :=
  all_up_no_food_gives_hello helloHand helloHandD helloHand_data rfl rfl rfl rfl rfl rfl
    ⟨0.5, 0.95⟩ ⟨0.5, 0.6⟩ ⟨0.65, 0.6⟩ rfl rfl rfl
    (by norm_num [abs_le]) (by norm_num [abs_le])

/-- Claim C7.  When two hands are present, the two-hand rules come first
(App.tsx lines 140-149): a flat hand opposite a fist gives HELP in either
hand order, and two flat hands give STOP — regardless of any single-hand
branch either hand would match on its own. -/
theorem two_hand_priority (a b : List Pt) (ha hb : HandData)
    (ea : getHandData a = some ha) (eb : getHandData b = some hb) :
    (allUp ha → allDown hb → recognizeGesture [a, b] = ClassifyResult.label (some "HELP")) ∧
    (allDown ha → allUp hb → recognizeGesture [a, b] = ClassifyResult.label (some "HELP")) ∧
    (allUp ha → allUp hb → recognizeGesture [a, b] = ClassifyResult.label (some "STOP")) := by
  refine ⟨fun h1 h2 => ?_, fun h1 h2 => ?_, fun h1 h2 => ?_⟩ <;>
  · obtain ⟨i1, m1, r1, p1⟩ := h1
    obtain ⟨i2, m2, r2, p2⟩ := h2
    simp [recognizeGesture, ea, eb, i1, m1, r1, p1, i2, m2, r2, p2]

/-- Witness for claim C7: a concrete flat hand and a concrete fist, in both
orders, and two flat hands.  The fist on its own would match the single-hand
FOOD shape, so HELP here really does override a single-hand match. -/
theorem two_hand_priority_witness :
    recognizeGesture [helloHand, fistHand] = ClassifyResult.label (some "HELP") ∧
    recognizeGesture [fistHand, helloHand] = ClassifyResult.label (some "HELP") ∧
    recognizeGesture [helloHand, helloHand] = ClassifyResult.label (some "STOP") :=
  ⟨(two_hand_priority helloHand fistHand helloHandD fistHandD helloHand_data fistHand_data).1
      ⟨rfl, rfl, rfl, rfl⟩ ⟨rfl, rfl, rfl, rfl⟩,
   (two_hand_priority fistHand helloHand fistHandD helloHandD fistHand_data helloHand_data).2.1
      ⟨rfl, rfl, rfl, rfl⟩ ⟨rfl, rfl, rfl, rfl⟩,
   (two_hand_priority helloHand helloHand helloHandD helloHandD helloHand_data helloHand_data).2.2
      ⟨rfl, rfl, rfl, rfl⟩ ⟨rfl, rfl, rfl, rfl⟩⟩

/-- Claim C10.  When neither two-hand rule matches, the result is computed
from the first hand alone (the cascade of App.tsx lines 151-199 only reads
`h1`), so swapping the second hand for any other hand that also matches no
two-hand rule cannot change the label. -/
theorem second_hand_noninterference (a b b' : List Pt) (ha hb hb' : HandData)
    (ea : getHandData a = some ha) (eb : getHandData b = some hb)
    (eb' : getHandData b' = some hb')
    (nb : twoHandRule ha hb = false) (nb' : twoHandRule ha hb' = false) :
    recognizeGesture [a, b] = recognizeGesture [a, b'] := by
  have key : ∀ (c : List Pt) (hc : HandData), getHandData c = some hc →
      twoHandRule ha hc = false → recognizeGesture [a, c] = singleHand ha := by
    intro c hc ec nc
    simp only [twoHandRule, Bool.or_eq_false_iff] at nc
    simp [recognizeGesture, ea, ec, nc.1, nc.2]
  rw [key b hb eb nb, key b' hb' eb' nb']

/-- Witness for claim C10: two degenerate fists at different positions as
the second hand next to a fist first hand; no two-hand rule matches and the
result agrees (both runs classify the first hand alone). -/
theorem second_hand_noninterference_witness :
    recognizeGesture [fistHand, fistHand] = recognizeGesture [fistHand, fistHand2] :=
  second_hand_noninterference fistHand fistHand fistHand2 fistHandD fistHandD fistHand2D
    fistHand_data fistHand_data fistHand2_data rfl rfl

/-- The buffer after the push/evict step of App.tsx lines 219-222. -/
def bufAfter (s : StabState) (g : String) : List String :=
  if (s.smoothingBuffer ++ [g]).length > BUFFER_SIZE then (s.smoothingBuffer ++ [g]).tail
  else s.smoothingBuffer ++ [g]

/-- Unfolding rule for `stabilizerUpdate` on a present raw gesture. -/
lemma stabilizerUpdate_some (s : StabState) (g : String) :
    stabilizerUpdate s (some g) =
      if CONFIDENCE_THRESHOLD ≤ (bestOf (bufAfter s g)).2 ∧
          (bestOf (bufAfter s g)).1 ≠ s.detectedWord then
        (⟨bufAfter s g, (bestOf (bufAfter s g)).1,
          ((bestOf (bufAfter s g)).1 :: s.gestureHistory).take 5⟩, some (bestOf (bufAfter s g)).1)
      else (⟨bufAfter s g, s.detectedWord, s.gestureHistory⟩, none) := rfl

/-- The fold of App.tsx lines 230-235 only ever stores a pair whose second
component is either the initial 0 or the buffer count of its first
component. -/
lemma bestFold_count (buf : List String) (keys : List String) :
    ∀ acc : String × Nat, (acc.2 = 0 ∨ buf.count acc.1 = acc.2) →
      ((bestFold buf acc keys).2 = 0 ∨
        buf.count (bestFold buf acc keys).1 = (bestFold buf acc keys).2) := by
  induction keys with
  | nil => exact fun acc h => h
  | cons g ks ih =>
    intro acc h
    have hstep : bestFold buf acc (g :: ks)
        = bestFold buf (if buf.count g > acc.2 then (g, buf.count g) else acc) ks := by
      simp only [bestFold, List.foldl_cons]
    rw [hstep]
    refine ih _ ?_
    by_cases hc : buf.count g > acc.2
    · refine Or.inr ?_
      rw [if_pos hc]
    · simp only [if_neg hc]
      exact h

/-- The winning pair of App.tsx lines 228-235: either nothing beat the
initial count 0, or the winner's recorded count is its buffer count. -/
lemma bestOf_count (buf : List String) :
    (bestOf buf).2 = 0 ∨ buf.count (bestOf buf).1 = (bestOf buf).2 :=
  bestFold_count buf (keysInOrder buf) ("", 0) (Or.inl rfl)

/-- If one smoothing pass changes the detected word, the new word occurs at
least `CONFIDENCE_THRESHOLD` times in the post-push buffer and differs from
the previous word. -/
lemma stabilizerUpdate_change (s : StabState) (raw : Option String)
    (h : (stabilizerUpdate s raw).1.detectedWord ≠ s.detectedWord) :
    CONFIDENCE_THRESHOLD ≤
      (stabilizerUpdate s raw).1.smoothingBuffer.count
        ((stabilizerUpdate s raw).1.detectedWord) ∧
    (stabilizerUpdate s raw).1.detectedWord ≠ s.detectedWord := by
  refine ⟨?_, h⟩
  cases raw with
  | none => exact absurd rfl h
  | some g =>
    rw [stabilizerUpdate_some] at h ⊢
    by_cases hc : CONFIDENCE_THRESHOLD ≤ (bestOf (bufAfter s g)).2 ∧
        (bestOf (bufAfter s g)).1 ≠ s.detectedWord
    · rw [if_pos hc] at h ⊢
      rcases bestOf_count (bufAfter s g) with h0 | hcount
      · rw [h0] at hc
        exact absurd hc.1 (by decide)
      · simpa [hcount] using hc.1
    · rw [if_neg hc] at h
      exact absurd rfl h

/-- Claim C4.  In any state reachable by a sequence of smoothing passes, a
pass changes the confirmed label only when some label (namely the new one)
occurs at least T = 7 times in the buffer after that pass's push, and that
label differs from the label confirmed before the pass (App.tsx line 237). -/
theorem confirmed_change_needs_threshold (prev : List (Option String)) (raw : Option String)
    (h : (stabilizerUpdate (runStab initState prev).1 raw).1.detectedWord
          ≠ (runStab initState prev).1.detectedWord) :
    ∃ glabel : String,
      CONFIDENCE_THRESHOLD ≤
        (stabilizerUpdate (runStab initState prev).1 raw).1.smoothingBuffer.count glabel ∧
      glabel ≠ (runStab initState prev).1.detectedWord :=
  ⟨_, (stabilizerUpdate_change _ raw h).1, (stabilizerUpdate_change _ raw h).2⟩

/-- Witness for claim C4: after six YES frames a seventh changes the
confirmed label from "" to YES, and indeed YES occurs 7 ≥ T times in the
buffer and differs from the old label. -/
theorem confirmed_change_needs_threshold_witness :
    ((stabilizerUpdate (runStab initState (List.replicate 6 (some "YES"))).1
        (some "YES")).1.detectedWord
      ≠ (runStab initState (List.replicate 6 (some "YES"))).1.detectedWord) ∧
    ∃ glabel : String,
      CONFIDENCE_THRESHOLD ≤
        (stabilizerUpdate (runStab initState (List.replicate 6 (some "YES"))).1
          (some "YES")).1.smoothingBuffer.count glabel ∧
      glabel ≠ (runStab initState (List.replicate 6 (some "YES"))).1.detectedWord :=
  ⟨by decide, confirmed_change_needs_threshold (List.replicate 6 (some "YES")) (some "YES")
    (by decide)⟩

/-- The buffer component of one smoothing pass does not depend on whether
the confirmation fired. -/
lemma stabilizerUpdate_buffer (s : StabState) (g : String) :
    (stabilizerUpdate s (some g)).1.smoothingBuffer = bufAfter s g := by
  rw [stabilizerUpdate_some]
  split <;> rfl

/-- Under the length invariant, push-then-evict keeps exactly the last
`BUFFER_SIZE` entries of the extended buffer. -/
lemma bufAfter_eq_drop (s : StabState) (g : String)
    (h : s.smoothingBuffer.length ≤ BUFFER_SIZE) :
    bufAfter s g =
      (s.smoothingBuffer ++ [g]).drop ((s.smoothingBuffer ++ [g]).length - BUFFER_SIZE) := by
  rw [bufAfter]
  by_cases hc : (s.smoothingBuffer ++ [g]).length > BUFFER_SIZE
  · rw [if_pos hc]
    have h1 : (s.smoothingBuffer ++ [g]).length - BUFFER_SIZE = 1 := by
      simp only [List.length_append, List.length_singleton] at hc ⊢
      omega
    rw [h1, List.drop_one]
  · rw [if_neg hc]
    have h0 : (s.smoothingBuffer ++ [g]).length - BUFFER_SIZE = 0 := by omega
    rw [h0, List.drop_zero]

/-- Push-then-evict preserves the buffer-length bound. -/
lemma bufAfter_length (s : StabState) (g : String)
    (h : s.smoothingBuffer.length ≤ BUFFER_SIZE) :
    (bufAfter s g).length ≤ BUFFER_SIZE := by
  rw [bufAfter_eq_drop s g h, List.length_drop]
  omega

/-- Unfolding rules for `runStab` on a cons cell. -/
lemma runStab_cons_state (s : StabState) (r : Option String) (rs : List (Option String)) :
    (runStab s (r :: rs)).1 = (runStab (stabilizerUpdate s r).1 rs).1 := rfl

/-- Event stream of `runStab` on a cons cell. -/
lemma runStab_cons_events (s : StabState) (r : Option String) (rs : List (Option String)) :
    (runStab s (r :: rs)).2 =
      (stabilizerUpdate s r).2 :: (runStab (stabilizerUpdate s r).1 rs).2 := rfl

/-- Claim C5, part 1 as an invariant: any run from a state within the bound
stays within the bound. -/
lemma runStab_len (raws : List (Option String)) :
    ∀ s : StabState, s.smoothingBuffer.length ≤ BUFFER_SIZE →
      ((runStab s raws).1).smoothingBuffer.length ≤ BUFFER_SIZE := by
  induction raws with
  | nil => exact fun s h => h
  | cons r rs ih =>
    intro s h
    rw [runStab_cons_state]
    refine ih _ ?_
    cases r with
    | none => exact h
    | some g =>
      rw [stabilizerUpdate_buffer]
      exact bufAfter_length s g h

/-- Dropping down to the last `n` elements ignores any prefix, as long as
the suffix already has at least `n` elements. -/
lemma drop_last_of_suffix (p t : List String) (n : Nat) (h : n ≤ t.length) :
    (p ++ t).drop ((p ++ t).length - n) = t.drop (t.length - n) := by
  have hlen : (p ++ t).length - n = p.length + (t.length - n) := by
    rw [List.length_append]
    omega
  rw [hlen, List.drop_append]

/-- Sliding-window absorption: taking the last `n` of (last `n` of `l`,
then `r`) is taking the last `n` of `l ++ r`. -/
lemma window_absorb (l r : List String) (n : Nat) :
    (l.drop (l.length - n) ++ r).drop ((l.drop (l.length - n) ++ r).length - n)
      = (l ++ r).drop ((l ++ r).length - n) := by
  by_cases h : l.length ≤ n
  · rw [Nat.sub_eq_zero_of_le h, List.drop_zero]
  · push_neg at h
    have hs : (l.drop (l.length - n)).length = n := by
      rw [List.length_drop]
      omega
    have hsplit : l = l.take (l.length - n) ++ l.drop (l.length - n) :=
      (List.take_append_drop _ _).symm
    conv_rhs => rw [hsplit]
    rw [List.append_assoc,
      drop_last_of_suffix (l.take (l.length - n)) (l.drop (l.length - n) ++ r) n
        (by rw [List.length_append, hs]; omega)]

/-- Claim C5, part 2 as a run formula: after pushing the labels `gs` the
buffer is exactly the last `BUFFER_SIZE` of the old buffer extended by
`gs`, in push order. -/
lemma runStab_buffer_pushes (gs : List String) :
    ∀ s : StabState, s.smoothingBuffer.length ≤ BUFFER_SIZE →
      ((runStab s (gs.map some)).1).smoothingBuffer =
        (s.smoothingBuffer ++ gs).drop ((s.smoothingBuffer ++ gs).length - BUFFER_SIZE) := by
  induction gs with
  | nil =>
    intro s h
    rw [List.append_nil, Nat.sub_eq_zero_of_le h, List.drop_zero]
    rfl
  | cons g gs ih =>
    intro s h
    rw [List.map_cons, runStab_cons_state]
    have hlen : ((stabilizerUpdate s (some g)).1).smoothingBuffer.length ≤ BUFFER_SIZE := by
      rw [stabilizerUpdate_buffer]
      exact bufAfter_length s g h
    rw [ih _ hlen, stabilizerUpdate_buffer, bufAfter_eq_drop s g h]
    have hassoc : s.smoothingBuffer ++ g :: gs = (s.smoothingBuffer ++ [g]) ++ gs := by
      simp
    rw [hassoc, window_absorb]

/-- Claim C5.  The smoothing buffer never exceeds `BUFFER_SIZE = 10`
entries under any raw-result sequence; and after pushing `10 + k` labels
(with `k > 0`) from the start, the buffer is exactly the most recent 10
pushed labels in push order, so its length is exactly 10. -/
theorem buffer_bound_and_window :
    (∀ raws : List (Option String),
        ((runStab initState raws).1).smoothingBuffer.length ≤ BUFFER_SIZE) ∧
    (∀ (gs : List String) (k : Nat), gs.length = BUFFER_SIZE + k → 0 < k →
        ((runStab initState (gs.map some)).1).smoothingBuffer = gs.drop k ∧
        ((runStab initState (gs.map some)).1).smoothingBuffer.length = BUFFER_SIZE) := by
  constructor
  · intro raws
    exact runStab_len raws initState (by decide)
  · intro gs k hk hkpos
    have hbuf := runStab_buffer_pushes gs initState (by decide)
    have hnil : initState.smoothingBuffer ++ gs = gs := rfl
    rw [hnil] at hbuf
    constructor
    · rw [hbuf]
      congr 1
      omega
    · rw [hbuf, List.length_drop]
      omega

/-- Eleven labels to exercise the window formula. -/
def elevenLabels : List String :=
  ["GO", "GO", "GO", "YES", "YES", "YES", "YES", "GOOD", "GOOD", "GOOD", "GOOD"]

/-- Witness for claim C5 at concrete runs: a ten-frame mixed sequence stays
within the bound, and eleven pushes keep exactly the last ten in order. -/
theorem buffer_bound_and_window_witness :
    ((runStab initState yesGoodSequence).1).smoothingBuffer.length ≤ BUFFER_SIZE ∧
    ((runStab initState (elevenLabels.map some)).1).smoothingBuffer = elevenLabels.drop 1 ∧
    ((runStab initState (elevenLabels.map some)).1).smoothingBuffer.length = BUFFER_SIZE :=
  ⟨buffer_bound_and_window.1 yesGoodSequence,
   (buffer_bound_and_window.2 elevenLabels 1 rfl (by decide)).1,
   (buffer_bound_and_window.2 elevenLabels 1 rfl (by decide)).2⟩

/-- The stabilizer state after `j` consecutive frames of the same label `g`
starting from the initial state: the buffer holds `min j BUFFER_SIZE` copies
of `g`, and `g` is confirmed exactly once `j` reached the threshold. -/
def sameLabelState (g : String) (j : Nat) : StabState :=
  ⟨List.replicate (min j BUFFER_SIZE) g,
   if CONFIDENCE_THRESHOLD ≤ j then g else "",
   if CONFIDENCE_THRESHOLD ≤ j then [g] else []⟩

/-- Folding the key-collection step over copies of `g` starting from `[g]`
changes nothing. -/
lemma keysInOrder_aux (g : String) (m : Nat) :
    List.foldl (fun acc gg => if gg ∈ acc then acc else acc ++ [gg]) [g]
      (List.replicate m g) = [g] := by
  induction m with
  | zero => rfl
  | succ m ih =>
    rw [List.replicate_succ, List.foldl_cons]
    have hmem : (if g ∈ [g] then [g] else [g] ++ [g]) = [g] :=
      if_pos (List.mem_singleton.mpr rfl)
    rw [hmem, ih]

/-- A nonempty all-`g` buffer has the single key `g`. -/
lemma keysInOrder_replicate (g : String) (m : Nat) (hm : 0 < m) :
    keysInOrder (List.replicate m g) = [g] := by
  obtain ⟨m, rfl⟩ : ∃ m', m = m' + 1 := ⟨m - 1, by omega⟩
  rw [keysInOrder, List.replicate_succ, List.foldl_cons]
  have hmem : (if g ∈ ([] : List String) then ([] : List String) else [] ++ [g]) = [g] := by
    simp
  rw [hmem]
  exact keysInOrder_aux g m

/-- On an all-`g` buffer the winning pair is `g` with its full count. -/
lemma bestOf_replicate (g : String) (m : Nat) (hm : 0 < m) :
    bestOf (List.replicate m g) = (g, m) := by
  rw [bestOf, keysInOrder_replicate g m hm, bestFold, List.foldl_cons, List.foldl_nil]
  rw [List.count_replicate_self]
  exact if_pos hm

/-- Push-then-evict on the all-`g` state keeps an all-`g` buffer of the
capped length. -/
lemma bufAfter_sameLabel (g : String) (j : Nat) :
    bufAfter (sameLabelState g j) g = List.replicate (min (j + 1) BUFFER_SIZE) g := by
  show (if (List.replicate (min j BUFFER_SIZE) g ++ [g]).length > BUFFER_SIZE then
      (List.replicate (min j BUFFER_SIZE) g ++ [g]).tail
    else List.replicate (min j BUFFER_SIZE) g ++ [g]) = _
  rw [← List.replicate_succ', List.length_replicate]
  by_cases hc : min j BUFFER_SIZE + 1 > BUFFER_SIZE
  · rw [if_pos hc, List.replicate_succ, List.tail_cons]
    congr 1
    omega
  · rw [if_neg hc]
    congr 1
    omega

/-- One smoothing pass on the all-`g` state: a confirmation event fires
exactly at the pass in which the count first reaches the threshold. -/
lemma stabilizerUpdate_sameLabel (g : String) (hg : g ≠ "") (j : Nat) :
    stabilizerUpdate (sameLabelState g j) (some g) =
      (sameLabelState g (j + 1),
       if j + 1 = CONFIDENCE_THRESHOLD then some g else none) := by
  have hmin : 0 < min (j + 1) BUFFER_SIZE := by
    simp only [BUFFER_SIZE]
    omega
  rw [stabilizerUpdate_some, bufAfter_sameLabel, bestOf_replicate g _ hmin]
  simp only [sameLabelState, CONFIDENCE_THRESHOLD, BUFFER_SIZE] at *
  rcases Nat.lt_trichotomy j 6 with hj | rfl | hj
  · have e1 : ¬ 7 ≤ min (j + 1) 10 := by omega
    have e2 : ¬ 7 ≤ j := by omega
    have e3 : ¬ 7 ≤ j + 1 := by omega
    have e4 : ¬ (j + 1 = 7) := by omega
    simp [e1, e2, e3, e4]
  · simp [hg]
  · have e2 : 7 ≤ j := by omega
    have e3 : 7 ≤ j + 1 := by omega
    have e4 : ¬ (j + 1 = 7) := by omega
    simp [e2, e3, e4]

/-- Running `m` further frames of `g` from the all-`g` state: the state
advances to `sameLabelState g (j + m)` and the only confirmation event in
the stream is at the pass where the count reaches the threshold. -/
lemma runStab_sameLabel (g : String) (hg : g ≠ "") :
    ∀ (m j : Nat), runStab (sameLabelState g j) (List.replicate m (some g)) =
      (sameLabelState g (j + m),
       (List.range m).map
         (fun i => if j + i + 1 = CONFIDENCE_THRESHOLD then some g else none)) := by
  intro m
  induction m with
  | zero =>
    intro j
    simp [runStab]
  | succ m ih =>
    intro j
    rw [List.replicate_succ]
    have h1 : runStab (sameLabelState g j) (some g :: List.replicate m (some g)) =
        ((runStab (stabilizerUpdate (sameLabelState g j) (some g)).1
            (List.replicate m (some g))).1,
         (stabilizerUpdate (sameLabelState g j) (some g)).2 ::
           (runStab (stabilizerUpdate (sameLabelState g j) (some g)).1
             (List.replicate m (some g))).2) := rfl
    rw [h1, stabilizerUpdate_sameLabel g hg j]
    simp only
    rw [ih (j + 1)]
    have harith : j + 1 + m = j + (m + 1) := by omega
    rw [harith]
    refine Prod.ext rfl ?_
    simp only [List.range_succ_eq_map, List.map_cons, List.map_map]
    have hzero : j + 0 + 1 = j + 1 := by omega
    rw [hzero]
    refine congrArg (List.cons _) ?_
    refine List.map_congr_left (fun i _ => ?_)
    have : j + 1 + i + 1 = j + Nat.succ i + 1 := by omega
    rw [this]
    rfl

/-- The event stream of `7 + t` same-label frames from the start, in closed
form: six silent passes, one confirmation, then silence. -/
lemma range_map_event (g : String) (t : Nat) :
    (List.range (7 + t)).map (fun i => if i + 1 = 7 then some g else none) =
      List.replicate 6 none ++ some g :: List.replicate t none := by
  induction t with
  | zero => rfl
  | succ t ih =>
    have h1 : 7 + (t + 1) = (7 + t) + 1 := by omega
    rw [h1, List.range_succ, List.map_append, ih]
    have h2 : ¬ (7 + t = 6) := by omega
    simp [h2, List.replicate_succ', List.append_assoc]

/-- Claim C6.  Starting from the empty initial state, feeding `k ≥ T = 7`
frames of the same (nonempty) raw label yields exactly one confirmation
event, at the seventh pass — the pass at which the label's buffer count
first reaches T (the count after pass `j ≤ 10` is `j`). -/
theorem sustained_label_confirms_once (g : String) (hg : g ≠ "") (k : Nat)
    (hk : CONFIDENCE_THRESHOLD ≤ k) :
    (runStab initState (List.replicate k (some g))).2 =
      List.replicate 6 none ++ some g :: List.replicate (k - CONFIDENCE_THRESHOLD) none := by
  have h0 : initState = sameLabelState g 0 := rfl
  rw [h0, runStab_sameLabel g hg k 0]
  simp only [CONFIDENCE_THRESHOLD] at hk ⊢
  obtain ⟨t, rfl⟩ : ∃ t, k = 7 + t := ⟨k - 7, by omega⟩
  have hsub : 7 + t - 7 = t := by omega
  rw [hsub]
  have hfun : ∀ i : Nat, 0 + i + 1 = i + 1 := fun i => by omega
  simp only [hfun]
  exact range_map_event g t

/-- Witness for claim C6: eight GO frames confirm GO exactly once, at the
seventh pass. -/
theorem sustained_label_confirms_once_witness :
    (runStab initState (List.replicate 8 (some "GO"))).2 =
      List.replicate 6 none ++ some "GO" :: List.replicate (8 - CONFIDENCE_THRESHOLD) none :=
  sustained_label_confirms_once "GO" (by decide) 8 (by decide)
